import Mathlib

/-!
Shallow embedding of the settlement and credit-metering core of the
nevermined-io/hackathons starter kits, together with proofs checking the
natural-language specification against the code.

Python strings are modelled as `List Char` (`Str`), Python dicts keyed by
string as association lists, and wall-clock time at UTC-day granularity as a
`Nat` day index (the only time observation the budget code makes is
`datetime.now(timezone.utc).date()`).
-/

set_option maxRecDepth 4000

/-- Python `str` modelled as a list of characters. -/
abbrev Str := List Char

/-- Decimal rendering of a natural number, as in Python f-string interpolation. -/
def natStr (n : Nat) : Str := (Nat.repr n).toList

/-- Decimal rendering of an integer, as in Python f-string interpolation. -/
def intStr (i : Int) : Str := (Int.repr i).toList

/-- Python `s.rstrip("/")`: drop every trailing `/`. -/
def rstripSlash (s : Str) : Str := (s.reverse.dropWhile (fun c => c = '/')).reverse

/-!
## Budget tracker — `src/agents/buyer-simple-agent/src/budget.py`
-/

/-- One entry of `Budget._purchases` (the dict appended in `record_purchase`).
The `timestamp` field holds the day index, our model of
`datetime.now(timezone.utc).isoformat()`. -/
structure PurchaseRecord where
  credits : Nat
  seller : Str
  query : Str
  timestamp : Nat
deriving DecidableEq

/-- The mutable state of class `Budget` (lock omitted: operations are modelled
as whole atomic state transformers, which is what the lock enforces). -/
structure BudgetState where
  maxDaily : Nat
  maxPerRequest : Nat
  dailySpend : Nat
  totalSpend : Nat
  purchaseCount : Nat
  currentDay : Nat
  purchases : List PurchaseRecord
deriving DecidableEq

/-- Model of `Budget.__init__(max_daily, max_per_request)` at day `today`. -/
def Budget.init (maxDaily maxPerRequest today : Nat) : BudgetState :=
  { maxDaily := maxDaily, maxPerRequest := maxPerRequest, dailySpend := 0,
    totalSpend := 0, purchaseCount := 0, currentDay := today, purchases := [] }

/-- Model of `Budget._reset_if_new_day`, with the observed UTC date passed in as `today`. -/
def resetIfNewDay (today : Nat) (s : BudgetState) : BudgetState :=
  if today ≠ s.currentDay then
    { s with dailySpend := 0, currentDay := today }
  else s

/-- Model of `Budget.can_spend(credits)`: returns the post-call state (the rollover may
mutate it) together with `(allowed, reason)`. The reason strings are the
f-strings of the source, concatenated. -/
def canSpend (today credits : Nat) (s : BudgetState) : BudgetState × Bool × Str :=
  let r := resetIfNewDay today s
  if r.maxPerRequest > 0 ∧ credits > r.maxPerRequest then
    (r, false,
      "Request costs ".toList ++ natStr credits ++
      " credits but per-request limit is ".toList ++ natStr r.maxPerRequest)
  else if r.maxDaily > 0 ∧ r.dailySpend + credits > r.maxDaily then
    (r, false,
      "Request costs ".toList ++ natStr credits ++ " credits but only ".toList ++
      intStr ((r.maxDaily : Int) - (r.dailySpend : Int)) ++
      " remaining in daily budget (".toList ++ natStr r.maxDaily ++ ")".toList)
  else (r, true, "OK".toList)

/-- Model of `Budget.record_purchase(credits, seller_url, query)`. -/
def recordPurchase (today credits : Nat) (sellerUrl query : Str)
    (s : BudgetState) : BudgetState :=
  let r := resetIfNewDay today s
  { r with
    dailySpend := r.dailySpend + credits,
    totalSpend := r.totalSpend + credits,
    purchaseCount := r.purchaseCount + 1,
    purchases := r.purchases ++
      [{ credits := credits, seller := sellerUrl, query := query.take 100,
         timestamp := today }] }

/-- The snapshot dict returned by `Budget.get_status` (`none` models the
`"unlimited"` string that replaces a zero limit). -/
structure BudgetStatus where
  dailyLimit : Option Nat
  dailySpent : Nat
  dailyRemaining : Option Int
  perRequestLimit : Option Nat
  totalSpent : Nat
  totalPurchases : Nat
  recentPurchases : List PurchaseRecord
deriving DecidableEq

/-- Model of `Budget.get_status`: rolls the day over, then projects the state.
`self._purchases[-5:]` is `drop (length - 5)`. -/
def getStatus (today : Nat) (s : BudgetState) : BudgetState × BudgetStatus :=
  let r := resetIfNewDay today s
  (r,
   { dailyLimit := if r.maxDaily = 0 then none else some r.maxDaily,
     dailySpent := r.dailySpend,
     dailyRemaining :=
       if r.maxDaily > 0 then some ((r.maxDaily : Int) - (r.dailySpend : Int))
       else none,
     perRequestLimit := if r.maxPerRequest = 0 then none else some r.maxPerRequest,
     totalSpent := r.totalSpend,
     totalPurchases := r.purchaseCount,
     recentPurchases := r.purchases.drop (r.purchases.length - 5) })

/-- One call against a shared `Budget` instance, tagged with the UTC day the
call observes. -/
inductive BudgetOp where
  | check (today credits : Nat)
  | record (today credits : Nat) (sellerUrl query : Str)
  | status (today : Nat)

/-- State reached by one budget call (results discarded). -/
def applyOp (s : BudgetState) : BudgetOp → BudgetState
  | .check t c => (canSpend t c s).1
  | .record t c u q => recordPurchase t c u q s
  | .status t => (getStatus t s).1

/-- State reached by a sequence of budget calls. -/
def runOps (ops : List BudgetOp) (s : BudgetState) : BudgetState :=
  ops.foldl applyOp s

/-!
## Streamed-task executor — `src/agents/seller-simple-agent/src/agent_a2a.py`
-/

/-- One content block of a Strands message: either a dict of type
`tool_use` (with an optional `name` key, default `""`), or any other block. -/
inductive Block where
  | toolUse (name : Option Str)
  | other
deriving DecidableEq

/-- One entry of `agent.messages`: a dict (whose `content` key defaults to
`[]`), or a non-dict value, which `_calculate_credits` skips. -/
inductive Msg where
  | dict (content : List Block)
  | nonDict
deriving DecidableEq

/-- Model of `StrandsA2AExecutor._calculate_credits`, the running total of the two
nested `for` loops (without the final `or 1`). -/
def msgBlocksCredits (creditMap : List (Str × Nat)) : List Block → Nat
  | [] => 0
  | .toolUse name :: rest =>
      ((creditMap.lookup (name.getD [])).getD 1) + msgBlocksCredits creditMap rest
  | .other :: rest => msgBlocksCredits creditMap rest

/-- Outer loop of `_calculate_credits` over the message list. -/
def msgsCredits (creditMap : List (Str × Nat)) : List Msg → Nat
  | [] => 0
  | .dict blocks :: rest => msgBlocksCredits creditMap blocks + msgsCredits creditMap rest
  | .nonDict :: rest => msgsCredits creditMap rest

/-- Model of `StrandsA2AExecutor._calculate_credits(messages)`: the final
`return total or 1`. -/
def calculateCredits (creditMap : List (Str × Nat)) (messages : List Msg) : Nat :=
  let total := msgsCredits creditMap messages
  if total = 0 then 1 else total

/-- The task states of `a2a.types.TaskState` used by the executor. -/
inductive TaskStateL where
  | submitted
  | working
  | completed
  | failed
  | canceled
deriving DecidableEq

/-- The `metadata` dict attached by `_make_status_event`. -/
structure EventMetadata where
  creditsUsed : Option Nat
  agentRequestId : Option Str
deriving DecidableEq

/-- A `TaskStatusUpdateEvent` as built by `_make_status_event`. -/
structure StatusEvent where
  state : TaskStateL
  text : Str
  metadata : Option EventMetadata
  final : Bool
deriving DecidableEq

/-- Model of `_make_status_event(task_id, context_id, state, text, credits_used,
agent_request_id, final)`: the metadata dict gets a `creditsUsed` key when
`credits_used is not None`, an `agentRequestId` key when the id is truthy,
and `metadata or None` turns the empty dict into `None`. -/
def mkStatusEvent (state : TaskStateL) (text : Str) (creditsUsed : Option Nat)
    (agentRequestId : Option Str) (final : Bool) : StatusEvent :=
  let arid := match agentRequestId with
    | some s => if s = [] then none else some s
    | none => none
  let metadata : Option EventMetadata :=
    if creditsUsed.isNone && arid.isNone then none
    else some { creditsUsed := creditsUsed, agentRequestId := arid }
  { state := state, text := text, metadata := metadata, final := final }

/-- An event enqueued by the executor: the initial `Task` object (whose status
state is `submitted`), or a `TaskStatusUpdateEvent`. -/
inductive A2AEvent where
  | task (state : TaskStateL)
  | status (e : StatusEvent)
deriving DecidableEq

/-- The `creditsUsed` metadata of an event, when present. -/
def A2AEvent.creditsUsed : A2AEvent → Option Nat
  | .task _ => none
  | .status e => e.metadata.bind EventMetadata.creditsUsed

/-- Model of `StrandsA2AExecutor.execute`, as the sequence of events it enqueues.
The Strands agent run (`await asyncio.to_thread(agent, user_text, ...)`) is
abstracted as `outcome`: either an exception message, or the response text
together with the messages the run appended to `agent.messages`.
`msg_offset = len(agent.messages)` is snapshotted before the run, and on
success credits are computed from `agent.messages[msg_offset:]`. -/
def executeEvents (hasCurrentTask : Bool) (history : List Msg)
    (creditMap : List (Str × Nat)) (agentRequestId : Option Str)
    (outcome : Except Str (Str × List Msg)) : List A2AEvent :=
  let initial : List A2AEvent := if hasCurrentTask then [] else [.task .submitted]
  let workingEv : A2AEvent :=
    .status (mkStatusEvent .working "Processing request...".toList none none false)
  let msgOffset := history.length
  match outcome with
  | .error exc =>
      initial ++ [workingEv,
        .status (mkStatusEvent .failed ("Error: ".toList ++ exc) (some 0)
          agentRequestId true)]
  | .ok (responseText, newMsgs) =>
      let messages := history ++ newMsgs
      let creditsUsed := calculateCredits creditMap (messages.drop msgOffset)
      initial ++ [workingEv,
        .status (mkStatusEvent .completed responseText (some creditsUsed)
          agentRequestId true)]

/-- Model of `StrandsA2AExecutor.cancel`: a single event, built without consulting any
prior task state. -/
def cancelEvents : List A2AEvent :=
  [.status (mkStatusEvent .canceled "Task cancelled.".toList (some 0) none true)]

/-!
## Dynamic credit functions — `src/agents/mcp-server-agent/src/server.py`
-/

/-- One entry of the MCP result `content` list (its `text` key is optional). -/
structure ContentBlock where
  text : Option Str
deriving DecidableEq

/-- The MCP-format tool result `{"content": [...]}`. -/
structure ToolResult where
  content : List ContentBlock
deriving DecidableEq

/-- The context dict the PaymentsMCP paywall passes to a credit function:
`{"args": {...}, "result": {...}}` (the `request` key is unused by both
credit functions). -/
structure CreditCtx where
  args : List (Str × Str)
  result : Option ToolResult
deriving DecidableEq

/-- Model of `content[0].get("text", "") if content else ""` applied to
`ctx.get("result") or {}`. -/
def ctxOutputText (ctx : CreditCtx) : Str :=
  match ctx.result with
  | none => []
  | some r =>
    match r.content with
    | [] => []
    | b :: _ => b.text.getD []

/-- Model of `_summarize_credits(ctx)`: `min(10, max(2, 2 + len(text) // 500))`. -/
def summarizeCredits (ctx : CreditCtx) : Nat :=
  min 10 (max 2 (2 + (ctxOutputText ctx).length / 500))

/-- Model of `_research_credits(ctx)`: base 10 for `depth == "deep"` else 5, then
`min(20, base + len(text) // 500)`. -/
def researchCredits (ctx : CreditCtx) : Nat :=
  let depth := (ctx.args.lookup "depth".toList).getD "standard".toList
  let base := if depth = "deep".toList then 10 else 5
  min 20 (base + (ctxOutputText ctx).length / 500)

/-- The clamp of the specification text: `clamp(x, lo, hi)`. -/
def clampSpec (x lo hi : Nat) : Nat := min hi (max lo x)

/-!
## Seller registry — `src/agents/buyer-simple-agent/src/registry.py`
-/

/-- One entry of an agent card's `skills` list (keys used downstream are
`name` and `id`; the registry stores the dicts verbatim). -/
structure Skill where
  name : Option Str
  id : Option Str
  description : Option Str
deriving DecidableEq

/-- The `params` dict of a payment extension. -/
structure PaymentParams where
  planId : Option Str
  agentId : Option Str
  credits : Option Nat
  costDescription : Option Str
deriving DecidableEq

/-- One entry of `agent_card["capabilities"]["extensions"]`. -/
structure CardExtension where
  uri : Option Str
  params : Option PaymentParams
deriving DecidableEq

/-- An agent card as read by `SellerRegistry.register`: optional `name` and
`description`, the `skills` list (default `[]` folded in), and
`card.get("capabilities", {}).get("extensions", [])` (defaults folded in). -/
structure AgentCard where
  name : Option Str
  description : Option Str
  skills : List Skill
  extensions : List CardExtension
deriving DecidableEq

/-- The dataclass `SellerInfo`. -/
structure SellerInfo where
  url : Str
  name : Str
  description : Str
  skills : List Skill
  planId : Str
  agentId : Str
  credits : Nat
  costDescription : Str
deriving DecidableEq

/-- The parsing phase of `SellerRegistry.register`: normalize the URL, read
the card fields with their defaults, and take the first extension whose
`uri` equals `"urn:nevermined:payment"` (the loop breaks on the first hit). -/
def parseCard (agentUrl : Str) (card : AgentCard) : SellerInfo :=
  let url := rstripSlash agentUrl
  let name := card.name.getD "Unknown Agent".toList
  let description := card.description.getD []
  let found := card.extensions.find?
    (fun e => e.uri = some "urn:nevermined:payment".toList)
  match found with
  | some e =>
      let p := e.params.getD { planId := none, agentId := none,
                               credits := none, costDescription := none }
      { url := url, name := name, description := description,
        skills := card.skills,
        planId := p.planId.getD [], agentId := p.agentId.getD [],
        credits := p.credits.getD 1,
        costDescription := p.costDescription.getD [] }
  | none =>
      { url := url, name := name, description := description,
        skills := card.skills,
        planId := [], agentId := [], credits := 1, costDescription := [] }

/-- Model of `SellerRegistry._sellers`, a Python dict keyed by normalized URL,
modelled as an association list in insertion order. -/
abbrev SellerRegistryState := List (Str × SellerInfo)

/-- Assignment `d[k] = v` on a Python dict: replace in place when the key exists,
otherwise append (insertion order preserved). -/
def dictInsert (k : Str) (v : SellerInfo) (m : SellerRegistryState) :
    SellerRegistryState :=
  if m.any (fun p => p.1 = k) then
    m.map (fun p => if p.1 = k then (k, v) else p)
  else m ++ [(k, v)]

/-- Model of `SellerRegistry.register(agent_url, agent_card)`: stores the parsed info
under the normalized URL and returns it. -/
def register (reg : SellerRegistryState) (agentUrl : Str) (card : AgentCard) :
    SellerRegistryState × SellerInfo :=
  let info := parseCard agentUrl card
  (dictInsert info.url info reg, info)

/-!
## Buyer purchase tools — `src/agents/buyer-simple-agent/src/strands_agent.py`
-/

/-- Outcome status of a purchase attempt, as the `status` string of the
result dict. -/
inductive PurchaseStatus where
  | success
  | error
  | budgetExceeded
deriving DecidableEq

/-- The slice of a `purchase_*_impl` result the budget logic reads. -/
structure PurchaseResult where
  status : PurchaseStatus
  creditsUsed : Nat
deriving DecidableEq

/-- The budget interaction of the `purchase_data` tool: pre-check
`budget.can_spend(1)`, run the external impl (abstracted as `impl`), and on
`status == "success" and credits_used > 0` record the seller-reported cost. -/
def purchaseData (today : Nat) (s : BudgetState) (query sellerUrl : Str)
    (impl : PurchaseResult) : BudgetState × PurchaseResult :=
  let precheck := canSpend today 1 s
  if precheck.2.1 = false then
    (precheck.1, { status := .budgetExceeded, creditsUsed := 0 })
  else
    let s2 :=
      if impl.status = .success ∧ impl.creditsUsed > 0 then
        recordPurchase today impl.creditsUsed sellerUrl query precheck.1
      else precheck.1
    (s2, impl)

/-- The budget interaction of the `purchase_a2a` tool: pre-check with the
seller card's advertised minimum credits, then record the seller-reported
actual cost on success. -/
def purchaseA2A (today : Nat) (s : BudgetState) (query agentUrl : Str)
    (minCredits : Nat) (impl : PurchaseResult) : BudgetState × PurchaseResult :=
  let precheck := canSpend today minCredits s
  if precheck.2.1 = false then
    (precheck.1, { status := .budgetExceeded, creditsUsed := 0 })
  else
    let s2 :=
      if impl.status = .success ∧ impl.creditsUsed > 0 then
        recordPurchase today impl.creditsUsed agentUrl query precheck.1
      else precheck.1
    (s2, impl)

/-!
## Specification-side definitions (for refinement-style claims)
-/

/-- From the spec's words for the multi-tool billing rule: the names of all
`tool_use` blocks appearing in a message list, in order. -/
def toolUseNames : List Msg → List Str
  | [] => []
  | .dict blocks :: rest =>
      blocks.filterMap (fun b => match b with
        | .toolUse n => some (n.getD [])
        | .other => none) ++ toolUseNames rest
  | .nonDict :: rest => toolUseNames rest

/-- From the spec's words: the sum over all `tool_use` blocks of the credit
map's price for the tool name, with 1 when the name is unpriced. -/
def specToolSum (creditMap : List (Str × Nat)) (messages : List Msg) : Nat :=
  ((toolUseNames messages).map (fun n => (creditMap.lookup n).getD 1)).sum

theorem msgBlocksCredits_eq_sum (creditMap : List (Str × Nat)) (blocks : List Block) :
    msgBlocksCredits creditMap blocks =
      ((blocks.filterMap (fun b => match b with
        | .toolUse n => some (n.getD [])
        | .other => none)).map (fun n => (creditMap.lookup n).getD 1)).sum := by
  induction blocks with
  | nil => rfl
  | cons b rest ih =>
    cases b with
    | toolUse n => simp [msgBlocksCredits, List.filterMap_cons, ih]
    | other => simp [msgBlocksCredits, List.filterMap_cons, ih]

theorem msgsCredits_eq_specToolSum (creditMap : List (Str × Nat)) (messages : List Msg) :
    msgsCredits creditMap messages = specToolSum creditMap messages := by
  induction messages with
  | nil => rfl
  | cons m rest ih =>
    cases m with
    | dict blocks =>
      simp [msgsCredits, specToolSum, toolUseNames, ih,
        msgBlocksCredits_eq_sum creditMap blocks]
    | nonDict => simpa [msgsCredits, specToolSum, toolUseNames] using ih

/-- C2: for every list of messages and every credit map, the computed total
credit cost equals the sum over all `tool_use` blocks of the map's price for
that tool (1 when unpriced), except that a zero sum yields 1. -/
theorem calculate_credits_matches_spec_sum
    (creditMap : List (Str × Nat)) (messages : List Msg) :
    calculateCredits creditMap messages =
      if specToolSum creditMap messages = 0 then 1
      else specToolSum creditMap messages := by
  simp [calculateCredits, msgsCredits_eq_specToolSum]

/-- C1: in the streamed-task binding, every request whose execution raises an
exception ends with a terminal event of state `failed` carrying
`creditsUsed = 0`, and every cancel invocation emits a terminal event of
state `canceled` carrying `creditsUsed = 0`, regardless of prior task state. -/
theorem failed_and_canceled_events_bill_zero :
    (∀ (hasTask : Bool) (history : List Msg) (creditMap : List (Str × Nat))
        (arid : Option Str) (exc : Str),
      ∃ e : StatusEvent,
        (executeEvents hasTask history creditMap arid (.error exc)).getLast? =
          some (.status e) ∧
        e.state = .failed ∧
        e.metadata.bind EventMetadata.creditsUsed = some 0 ∧
        e.final = true)
    ∧ (∃ e : StatusEvent,
        cancelEvents.getLast? = some (.status e) ∧
        e.state = .canceled ∧
        e.metadata.bind EventMetadata.creditsUsed = some 0 ∧
        e.final = true) := by
  constructor
  · intro hasTask history creditMap arid exc
    refine ⟨mkStatusEvent .failed ("Error: ".toList ++ exc) (some 0) arid true,
      ?_, ?_, ?_, ?_⟩
    · cases hasTask <;> rfl
    · rfl
    · cases arid with
      | none => simp [mkStatusEvent]
      | some s => by_cases h : s = [] <;> simp [mkStatusEvent, h]
    · rfl
  · refine ⟨mkStatusEvent .canceled "Task cancelled.".toList (some 0) none true,
      rfl, rfl, ?_, rfl⟩
    simp [mkStatusEvent]

/-- C4: in the streamed-task binding, the billed credit cost of a successful
task is computed from exactly the messages appended after the offset captured
at task start: for every prior history `H` and per-task new messages `N`, the
terminal `completed` event carries `calculateCredits creditMap N`,
independent of `H`. -/
theorem credits_computed_from_new_messages_only :
    ∀ (hasTask : Bool) (history newMsgs : List Msg)
      (creditMap : List (Str × Nat)) (arid : Option Str) (text : Str),
      ∃ e : StatusEvent,
        (executeEvents hasTask history creditMap arid
            (.ok (text, newMsgs))).getLast? = some (.status e) ∧
        e.state = .completed ∧
        e.metadata.bind EventMetadata.creditsUsed =
          some (calculateCredits creditMap newMsgs) := by
  intro hasTask history newMsgs creditMap arid text
  refine ⟨mkStatusEvent .completed text
      (some (calculateCredits creditMap
        ((history ++ newMsgs).drop history.length))) arid true, ?_, ?_, ?_⟩
  · cases hasTask <;> rfl
  · rfl
  · rw [List.drop_left]
    cases arid with
    | none => simp [mkStatusEvent]
    | some s => by_cases h : s = [] <;> simp [mkStatusEvent, h]

/-!
## Helper lemmas about the budget state
-/

theorem resetIfNewDay_currentDay (today : Nat) (s : BudgetState) :
    (resetIfNewDay today s).currentDay = today := by
  unfold resetIfNewDay
  split
  · rfl
  · omega

theorem resetIfNewDay_of_currentDay (today : Nat) (s : BudgetState)
    (h : s.currentDay = today) : resetIfNewDay today s = s := by
  unfold resetIfNewDay
  simp [h]

theorem resetIfNewDay_idem (today : Nat) (s : BudgetState) :
    resetIfNewDay today (resetIfNewDay today s) = resetIfNewDay today s :=
  resetIfNewDay_of_currentDay today _ (resetIfNewDay_currentDay today s)

theorem resetIfNewDay_totalSpend (today : Nat) (s : BudgetState) :
    (resetIfNewDay today s).totalSpend = s.totalSpend := by
  unfold resetIfNewDay; split <;> rfl

theorem resetIfNewDay_maxDaily (today : Nat) (s : BudgetState) :
    (resetIfNewDay today s).maxDaily = s.maxDaily := by
  unfold resetIfNewDay; split <;> rfl

theorem resetIfNewDay_maxPerRequest (today : Nat) (s : BudgetState) :
    (resetIfNewDay today s).maxPerRequest = s.maxPerRequest := by
  unfold resetIfNewDay; split <;> rfl

theorem resetIfNewDay_purchaseCount (today : Nat) (s : BudgetState) :
    (resetIfNewDay today s).purchaseCount = s.purchaseCount := by
  unfold resetIfNewDay; split <;> rfl

theorem resetIfNewDay_purchases (today : Nat) (s : BudgetState) :
    (resetIfNewDay today s).purchases = s.purchases := by
  unfold resetIfNewDay; split <;> rfl

theorem canSpend_eq_of_perRequest (today credits : Nat) (s : BudgetState)
    (h : (resetIfNewDay today s).maxPerRequest > 0 ∧
      credits > (resetIfNewDay today s).maxPerRequest) :
    canSpend today credits s =
      (resetIfNewDay today s, false,
        "Request costs ".toList ++ natStr credits ++
        " credits but per-request limit is ".toList ++
        natStr (resetIfNewDay today s).maxPerRequest) := by
  simp only [canSpend]
  rw [if_pos h]

theorem canSpend_eq_of_daily (today credits : Nat) (s : BudgetState)
    (h1 : ¬((resetIfNewDay today s).maxPerRequest > 0 ∧
      credits > (resetIfNewDay today s).maxPerRequest))
    (h2 : (resetIfNewDay today s).maxDaily > 0 ∧
      (resetIfNewDay today s).dailySpend + credits >
        (resetIfNewDay today s).maxDaily) :
    canSpend today credits s =
      (resetIfNewDay today s, false,
        "Request costs ".toList ++ natStr credits ++ " credits but only ".toList ++
        intStr (((resetIfNewDay today s).maxDaily : Int) -
          ((resetIfNewDay today s).dailySpend : Int)) ++
        " remaining in daily budget (".toList ++
        natStr (resetIfNewDay today s).maxDaily ++ ")".toList) := by
  simp only [canSpend]
  rw [if_neg h1, if_pos h2]

theorem canSpend_eq_of_allowed (today credits : Nat) (s : BudgetState)
    (h1 : ¬((resetIfNewDay today s).maxPerRequest > 0 ∧
      credits > (resetIfNewDay today s).maxPerRequest))
    (h2 : ¬((resetIfNewDay today s).maxDaily > 0 ∧
      (resetIfNewDay today s).dailySpend + credits >
        (resetIfNewDay today s).maxDaily)) :
    canSpend today credits s = (resetIfNewDay today s, true, "OK".toList) := by
  simp only [canSpend]
  rw [if_neg h1, if_neg h2]

theorem canSpend_fst (today credits : Nat) (s : BudgetState) :
    (canSpend today credits s).1 = resetIfNewDay today s := by
  by_cases h1 : (resetIfNewDay today s).maxPerRequest > 0 ∧
      credits > (resetIfNewDay today s).maxPerRequest
  · rw [canSpend_eq_of_perRequest today credits s h1]
  · by_cases h2 : (resetIfNewDay today s).maxDaily > 0 ∧
        (resetIfNewDay today s).dailySpend + credits >
          (resetIfNewDay today s).maxDaily
    · rw [canSpend_eq_of_daily today credits s h1 h2]
    · rw [canSpend_eq_of_allowed today credits s h1 h2]

theorem getStatus_fst (today : Nat) (s : BudgetState) :
    (getStatus today s).1 = resetIfNewDay today s := rfl

theorem totalSpend_le_applyOp (s : BudgetState) (op : BudgetOp) :
    s.totalSpend ≤ (applyOp s op).totalSpend := by
  cases op with
  | check t c =>
      rw [applyOp, canSpend_fst, resetIfNewDay_totalSpend]
  | record t c u q =>
      show s.totalSpend ≤ (recordPurchase t c u q s).totalSpend
      unfold recordPurchase
      simp only [resetIfNewDay_totalSpend]
      exact Nat.le_add_right _ _
  | status t =>
      rw [applyOp, getStatus_fst, resetIfNewDay_totalSpend]

theorem totalSpend_le_runOps (ops : List BudgetOp) (s : BudgetState) :
    s.totalSpend ≤ (runOps ops s).totalSpend := by
  induction ops generalizing s with
  | nil => exact Nat.le_refl _
  | cons op rest ih =>
      calc s.totalSpend ≤ (applyOp s op).totalSpend := totalSpend_le_applyOp s op
        _ ≤ (runOps rest (applyOp s op)).totalSpend := ih (applyOp s op)
        _ = (runOps (op :: rest) s).totalSpend := rfl

/-- C3: `canSpend` first applies the day rollover, then denies on the
per-request limit (reason citing the amount and the limit), then denies on
the daily limit (reason citing the remaining budget and the limit), else
allows; the per-request denial takes precedence over the daily one. -/
theorem can_spend_checks_in_order (today amount : Nat) (s : BudgetState)
    (hpos : 0 < amount) :
    (canSpend today amount s).1 = resetIfNewDay today s
    ∧ ((resetIfNewDay today s).maxPerRequest > 0 ∧
        amount > (resetIfNewDay today s).maxPerRequest →
        (canSpend today amount s).2.1 = false
        ∧ natStr amount <:+: (canSpend today amount s).2.2
        ∧ natStr (resetIfNewDay today s).maxPerRequest <:+:
            (canSpend today amount s).2.2)
    ∧ (¬((resetIfNewDay today s).maxPerRequest > 0 ∧
          amount > (resetIfNewDay today s).maxPerRequest) →
        (resetIfNewDay today s).maxDaily > 0 ∧
          (resetIfNewDay today s).dailySpend + amount >
            (resetIfNewDay today s).maxDaily →
        (canSpend today amount s).2.1 = false
        ∧ intStr (((resetIfNewDay today s).maxDaily : Int) -
            ((resetIfNewDay today s).dailySpend : Int)) <:+:
            (canSpend today amount s).2.2
        ∧ natStr (resetIfNewDay today s).maxDaily <:+:
            (canSpend today amount s).2.2)
    ∧ (¬((resetIfNewDay today s).maxPerRequest > 0 ∧
          amount > (resetIfNewDay today s).maxPerRequest) →
        ¬((resetIfNewDay today s).maxDaily > 0 ∧
          (resetIfNewDay today s).dailySpend + amount >
            (resetIfNewDay today s).maxDaily) →
        (canSpend today amount s).2.1 = true) := by
  refine ⟨canSpend_fst today amount s, ?_, ?_, ?_⟩
  · intro hcond
    rw [canSpend_eq_of_perRequest today amount s hcond]
    refine ⟨rfl, ?_, ?_⟩
    · exact ⟨"Request costs ".toList,
        " credits but per-request limit is ".toList ++
          natStr (resetIfNewDay today s).maxPerRequest, by simp⟩
    · exact ⟨"Request costs ".toList ++ natStr amount ++
        " credits but per-request limit is ".toList, [], by simp⟩
  · intro hno hdaily
    rw [canSpend_eq_of_daily today amount s hno hdaily]
    refine ⟨rfl, ?_, ?_⟩
    · exact ⟨"Request costs ".toList ++ natStr amount ++ " credits but only ".toList,
        " remaining in daily budget (".toList ++
          natStr (resetIfNewDay today s).maxDaily ++ ")".toList, by simp⟩
    · exact ⟨"Request costs ".toList ++ natStr amount ++ " credits but only ".toList ++
        intStr (((resetIfNewDay today s).maxDaily : Int) -
          ((resetIfNewDay today s).dailySpend : Int)) ++
        " remaining in daily budget (".toList, ")".toList, by simp⟩
  · intro hno hnodaily
    rw [canSpend_eq_of_allowed today amount s hno hnodaily]

theorem recordPurchase_currentDay (today credits : Nat) (sellerUrl query : Str)
    (s : BudgetState) :
    (recordPurchase today credits sellerUrl query s).currentDay = today := by
  unfold recordPurchase
  simp only []
  exact resetIfNewDay_currentDay today s

/-- A concrete budget state: daily limit 100, no per-request limit, 95 credits
already spent today. -/
def sampleBudget95 : BudgetState :=
  { maxDaily := 100, maxPerRequest := 0, dailySpend := 95, totalSpend := 95,
    purchaseCount := 3, currentDay := 0, purchases := [] }

/-- Witness for C3 at a concrete input: the daily-limit denial fires. -/
theorem can_spend_checks_in_order_witness :
    0 < 10 ∧ (canSpend 0 10 sampleBudget95).2.1 = false := by
  refine ⟨by decide, ?_⟩
  exact ((can_spend_checks_in_order 0 10 sampleBudget95 (by decide)).2.2.1
    (by decide) (by decide)).1

/-- C7 counterexample: with `dailyLimit=100, dailySpend=95`, `canSpend(10)`
denies, but the reason string does not contain `"95"` (the current daily
spend is not cited, only the remaining budget and the limit). -/
theorem scenario_a_reason_lacks_95 :
    (canSpend 0 10 sampleBudget95).2.1 = false ∧
    ¬("95".toList <:+: (canSpend 0 10 sampleBudget95).2.2) := by
  decide

/-- C7 amended: with `dailyLimit=100, dailySpend=95`, `canSpend(10)` returns
`allowed=false` with a reason containing `"5 remaining"` and `"100"`. -/
theorem scenario_a_amended :
    (canSpend 0 10 sampleBudget95).2.1 = false ∧
    ("5 remaining".toList <:+: (canSpend 0 10 sampleBudget95).2.2) ∧
    ("100".toList <:+: (canSpend 0 10 sampleBudget95).2.2) := by
  decide

/-- C6: both purchase tools admit with only the advertised minimum
(1 credit for the HTTP tool, the card's `minCredits` for the A2A tool) and
then record the seller-reported actual cost, so one successful sequential
purchase whose actual cost exceeds the remaining daily budget pushes
`dailySpend` past `dailyLimit`. -/
theorem purchase_minimum_admission_overshoots_daily_limit
    (today : Nat) (s : BudgetState) (query url : Str) (c m : Nat) :
    ((resetIfNewDay today s).maxPerRequest = 0 →
      (resetIfNewDay today s).dailySpend + 1 ≤ (resetIfNewDay today s).maxDaily →
      (resetIfNewDay today s).maxDaily < (resetIfNewDay today s).dailySpend + c →
      0 < c →
      (purchaseData today s query url
        { status := .success, creditsUsed := c }).2.status = .success
      ∧ (purchaseData today s query url
          { status := .success, creditsUsed := c }).1.maxDaily =
          (resetIfNewDay today s).maxDaily
      ∧ (purchaseData today s query url
          { status := .success, creditsUsed := c }).1.dailySpend =
          (resetIfNewDay today s).dailySpend + c
      ∧ (purchaseData today s query url
          { status := .success, creditsUsed := c }).1.maxDaily <
        (purchaseData today s query url
          { status := .success, creditsUsed := c }).1.dailySpend)
    ∧ ((resetIfNewDay today s).maxPerRequest = 0 →
      (resetIfNewDay today s).dailySpend + m ≤ (resetIfNewDay today s).maxDaily →
      (resetIfNewDay today s).maxDaily < (resetIfNewDay today s).dailySpend + c →
      0 < c →
      (purchaseA2A today s query url m
        { status := .success, creditsUsed := c }).2.status = .success
      ∧ (purchaseA2A today s query url m
          { status := .success, creditsUsed := c }).1.maxDaily =
          (resetIfNewDay today s).maxDaily
      ∧ (purchaseA2A today s query url m
          { status := .success, creditsUsed := c }).1.dailySpend =
          (resetIfNewDay today s).dailySpend + c
      ∧ (purchaseA2A today s query url m
          { status := .success, creditsUsed := c }).1.maxDaily <
        (purchaseA2A today s query url m
          { status := .success, creditsUsed := c }).1.dailySpend) := by
  constructor
  · intro hpr hadmit hover hc
    have hok : canSpend today 1 s = (resetIfNewDay today s, true, "OK".toList) :=
      canSpend_eq_of_allowed today 1 s (by omega) (by omega)
    have hrec : purchaseData today s query url
        { status := .success, creditsUsed := c } =
        (recordPurchase today c url query (resetIfNewDay today s),
          { status := .success, creditsUsed := c }) := by
      simp only [purchaseData, hok]
      simp [hc]
    rw [hrec]
    refine ⟨rfl, ?_, ?_, ?_⟩
    · unfold recordPurchase
      simp only [resetIfNewDay_idem]
    · unfold recordPurchase
      simp only [resetIfNewDay_idem]
    · unfold recordPurchase
      simp only [resetIfNewDay_idem]
      omega
  · intro hpr hadmit hover hc
    have hok : canSpend today m s = (resetIfNewDay today s, true, "OK".toList) :=
      canSpend_eq_of_allowed today m s (by omega) (by omega)
    have hrec : purchaseA2A today s query url m
        { status := .success, creditsUsed := c } =
        (recordPurchase today c url query (resetIfNewDay today s),
          { status := .success, creditsUsed := c }) := by
      simp only [purchaseA2A, hok]
      simp [hc]
    rw [hrec]
    refine ⟨rfl, ?_, ?_, ?_⟩
    · unfold recordPurchase
      simp only [resetIfNewDay_idem]
    · unfold recordPurchase
      simp only [resetIfNewDay_idem]
    · unfold recordPurchase
      simp only [resetIfNewDay_idem]
      omega

/-- Witness for C6: limit 100, spent 95, admitted at 1 credit, seller reports
50: the recorded daily spend 145 exceeds the limit. -/
theorem purchase_overshoot_witness :
    (purchaseData 0 sampleBudget95 "q".toList "http://s".toList
      { status := .success, creditsUsed := 50 }).1.dailySpend = 145 := by
  have h := (purchase_minimum_admission_overshoots_daily_limit 0 sampleBudget95
    "q".toList "http://s".toList 50 1).1 (by decide) (by decide) (by decide)
    (by decide)
  exact h.2.2.1.trans (by decide)

/-- C8: `recordPurchase` unconditionally increments `dailySpend`,
`totalSpend` and `purchaseCount`, appends a record whose stored query is the
input truncated to at most 100 characters (exactly 100 for a 150-character
input), and the status projection `recentPurchases` holds at most the last 5
records. -/
theorem record_purchase_updates_and_trims (today credits : Nat)
    (sellerUrl query : Str) (s : BudgetState) (hpos : 0 < credits) :
    (recordPurchase today credits sellerUrl query s).dailySpend =
      (resetIfNewDay today s).dailySpend + credits
    ∧ (recordPurchase today credits sellerUrl query s).totalSpend =
      s.totalSpend + credits
    ∧ (recordPurchase today credits sellerUrl query s).purchaseCount =
      s.purchaseCount + 1
    ∧ (recordPurchase today credits sellerUrl query s).purchases =
      s.purchases ++ [⟨credits, sellerUrl, query.take 100, today⟩]
    ∧ (query.take 100).length = min 100 query.length
    ∧ (query.length = 150 → (query.take 100).length = 100)
    ∧ ((getStatus today
        (recordPurchase today credits sellerUrl query s)).2.recentPurchases).length ≤ 5
    ∧ (recordPurchase today credits sellerUrl query s).purchases =
        (recordPurchase today credits sellerUrl query s).purchases.take
          ((recordPurchase today credits sellerUrl query s).purchases.length - 5)
        ++ (getStatus today
            (recordPurchase today credits sellerUrl query s)).2.recentPurchases := by
  have hday : resetIfNewDay today (recordPurchase today credits sellerUrl query s) =
      recordPurchase today credits sellerUrl query s :=
    resetIfNewDay_of_currentDay today _
      (recordPurchase_currentDay today credits sellerUrl query s)
  refine ⟨?_, ?_, ?_, ?_, ?_, ?_, ?_, ?_⟩
  · rfl
  · unfold recordPurchase
    simp only [resetIfNewDay_totalSpend]
  · unfold recordPurchase
    simp only [resetIfNewDay_purchaseCount]
  · unfold recordPurchase
    simp only [resetIfNewDay_purchases]
  · exact List.length_take 100 query
  · intro h
    rw [List.length_take, h]
    decide
  · show ((getStatus today _).2.recentPurchases).length ≤ 5
    unfold getStatus
    simp only [hday, List.length_drop]
    omega
  · show _ = _ ++ (getStatus today _).2.recentPurchases
    unfold getStatus
    simp only [hday]
    exact (List.take_append_drop _ _).symm

/-- Witness for C8: a 150-character query is stored truncated to 100. -/
theorem record_purchase_updates_and_trims_witness :
    0 < 5 ∧
    ((List.replicate 150 'x').take 100).length = 100 := by
  refine ⟨by decide, ?_⟩
  exact (record_purchase_updates_and_trims 0 5 "seller-1".toList
    (List.replicate 150 'x') sampleBudget95 (by decide)).2.2.2.2.2.1 (by simp)

/-- C9: the daily counter resets to 0 exactly once when the observed UTC date
differs (same-date calls never reset, and the rollover is idempotent), while
`totalSpend` is never reset and is non-decreasing across every sequence of
budget operations. -/
theorem day_rollover_once_and_total_spend_monotone :
    (∀ (today : Nat) (s : BudgetState), today ≠ s.currentDay →
      (resetIfNewDay today s).dailySpend = 0 ∧
      (resetIfNewDay today s).currentDay = today)
    ∧ (∀ (today : Nat) (s : BudgetState), today = s.currentDay →
        resetIfNewDay today s = s)
    ∧ (∀ (today : Nat) (s : BudgetState),
        resetIfNewDay today (resetIfNewDay today s) = resetIfNewDay today s)
    ∧ (∀ (today : Nat) (s : BudgetState),
        (resetIfNewDay today s).totalSpend = s.totalSpend)
    ∧ (∀ (ops : List BudgetOp) (s : BudgetState),
        s.totalSpend ≤ (runOps ops s).totalSpend) := by
  refine ⟨?_, ?_, ?_, ?_, ?_⟩
  · intro t s h
    refine ⟨?_, resetIfNewDay_currentDay t s⟩
    unfold resetIfNewDay
    rw [if_pos h]
  · intro t s h
    exact resetIfNewDay_of_currentDay t s h.symm
  · intro t s
    exact resetIfNewDay_idem t s
  · intro t s
    exact resetIfNewDay_totalSpend t s
  · intro ops s
    exact totalSpend_le_runOps ops s

/-- Witness for C9: advancing the day from 0 to 1 clears the daily counter. -/
theorem day_rollover_witness :
    (1 : Nat) ≠ sampleBudget95.currentDay ∧
    (resetIfNewDay 1 sampleBudget95).dailySpend = 0 := by
  refine ⟨by decide, ?_⟩
  exact (day_rollover_once_and_total_spend_monotone.1 1 sampleBudget95
    (by decide)).1

/-- C5: both dynamic credit functions compute exactly
`clamp(base + len(outputText) // 500, min, max)`; for the research tool the
base is 10 when the `depth` argument is `"deep"` and 5 otherwise, and at
standard depth output lengths 0–499 cost 5, 1000–1499 cost 7, and ≥ 7500
cost exactly 20. -/
theorem dynamic_length_bounded_pricing :
    (∀ ctx : CreditCtx,
      summarizeCredits ctx =
        clampSpec (2 + (ctxOutputText ctx).length / 500) 2 10)
    ∧ (∀ ctx : CreditCtx,
      researchCredits ctx =
        clampSpec
          ((if (ctx.args.lookup "depth".toList).getD "standard".toList =
              "deep".toList then 10 else 5) +
            (ctxOutputText ctx).length / 500) 5 20)
    ∧ (∀ ctx : CreditCtx,
      (ctx.args.lookup "depth".toList).getD "standard".toList ≠ "deep".toList →
      ((ctxOutputText ctx).length ≤ 499 → researchCredits ctx = 5)
      ∧ (1000 ≤ (ctxOutputText ctx).length ∧ (ctxOutputText ctx).length ≤ 1499 →
          researchCredits ctx = 7)
      ∧ (7500 ≤ (ctxOutputText ctx).length → researchCredits ctx = 20)) := by
  refine ⟨?_, ?_, ?_⟩
  · intro ctx
    rfl
  · intro ctx
    simp only [researchCredits, clampSpec]
    by_cases hd : (ctx.args.lookup "depth".toList).getD "standard".toList =
        "deep".toList
    · rw [if_pos hd]
      omega
    · rw [if_neg hd]
      omega
  · intro ctx hd
    simp only [researchCredits]
    rw [if_neg hd]
    refine ⟨?_, ?_, ?_⟩
    · intro h
      omega
    · intro h
      omega
    · intro h
      omega

/-- Witness for C5: empty output at standard depth costs 5. -/
theorem dynamic_length_bounded_pricing_witness :
    researchCredits { args := [], result := none } = 5 := by
  exact ((dynamic_length_bounded_pricing.2.2 { args := [], result := none }
    (by decide)).1 (by decide))

/-- Python `dict.get(key)` on the registry's association list. -/
def dictGet (k : Str) : SellerRegistryState → Option SellerInfo
  | [] => none
  | (k2, v) :: rest => if k2 = k then some v else dictGet k rest

theorem dictGet_cons_eq (k : Str) (v2 : SellerInfo) (l : SellerRegistryState) :
    dictGet k ((k, v2) :: l) = some v2 := by
  show (if k = k then some v2 else dictGet k l) = some v2
  rw [if_pos rfl]

theorem dictGet_cons_ne (k k2 : Str) (v2 : SellerInfo) (l : SellerRegistryState)
    (hp : ¬ k2 = k) : dictGet k ((k2, v2) :: l) = dictGet k l := by
  show (if k2 = k then some v2 else dictGet k l) = dictGet k l
  rw [if_neg hp]

theorem dictGet_overwrite (k : Str) (v : SellerInfo) (m : SellerRegistryState)
    (hmem : m.any (fun p => p.1 = k)) :
    dictGet k (m.map (fun p => if p.1 = k then (k, v) else p)) = some v := by
  induction m with
  | nil => simp at hmem
  | cons p rest ih =>
    rcases p with ⟨k2, v2⟩
    by_cases hp : k2 = k
    · simp only [List.map_cons, if_pos hp]
      exact dictGet_cons_eq k v _
    · have hrest : rest.any (fun q => q.1 = k) := by
        simp only [List.any_cons, decide_eq_true_eq, Bool.or_eq_true] at hmem
        rcases hmem with h | h
        · exact absurd h hp
        · exact h
      simp only [List.map_cons, if_neg hp]
      rw [dictGet_cons_ne k k2 v2 _ hp]
      exact ih hrest

theorem dictGet_append_new (k : Str) (v : SellerInfo) (m : SellerRegistryState)
    (hmem : ¬ m.any (fun p => p.1 = k)) :
    dictGet k (m ++ [(k, v)]) = some v := by
  induction m with
  | nil => exact dictGet_cons_eq k v []
  | cons p rest ih =>
    rcases p with ⟨k2, v2⟩
    have hp : ¬ k2 = k := by
      intro hh
      exact hmem (by simp [List.any_cons, hh])
    have hrest : ¬ rest.any (fun q => q.1 = k) := by
      intro hh
      exact hmem (by simp [List.any_cons, hh])
    simp only [List.cons_append]
    rw [dictGet_cons_ne k k2 v2 _ hp]
    exact ih hrest

theorem dictGet_dictInsert (k : Str) (v : SellerInfo) (m : SellerRegistryState) :
    dictGet k (dictInsert k v m) = some v := by
  unfold dictInsert
  by_cases hmem : m.any (fun p => p.1 = k)
  · rw [if_pos hmem]
    exact dictGet_overwrite k v m hmem
  · rw [if_neg hmem]
    exact dictGet_append_new k v m hmem

/-- C10: registering two URLs that normalize to the same key replaces the
stored `SellerInfo` wholesale with the value parsed from the second
descriptor, and `register` returns exactly the stored value. -/
theorem register_overwrites_wholesale (reg : SellerRegistryState)
    (u1 u2 : Str) (c1 c2 : AgentCard)
    (h : rstripSlash u1 = rstripSlash u2) :
    dictGet (rstripSlash u2) (register (register reg u1 c1).1 u2 c2).1 =
      some (parseCard u2 c2)
    ∧ (register (register reg u1 c1).1 u2 c2).2 = parseCard u2 c2 := by
  have hurl : (parseCard u2 c2).url = rstripSlash u2 := by
    unfold parseCard
    cases hfind : c2.extensions.find?
        (fun e => e.uri = some "urn:nevermined:payment".toList) <;>
      simp [hfind]
  constructor
  · show dictGet (rstripSlash u2)
      (dictInsert (parseCard u2 c2).url (parseCard u2 c2) _) = _
    rw [hurl]
    exact dictGet_dictInsert (rstripSlash u2) (parseCard u2 c2) _
  · rfl

/-- A first agent card, with no payment extension. -/
def cardA : AgentCard :=
  { name := some "Seller One".toList, description := some "old".toList,
    skills := [{ name := some "search".toList, id := none, description := none }],
    extensions := [] }

/-- A second agent card for the same seller URL, with a payment extension. -/
def cardB : AgentCard :=
  { name := some "Seller Two".toList, description := some "new".toList,
    skills := [{ name := some "research".toList, id := some "r1".toList,
                 description := none }],
    extensions :=
      [{ uri := some "urn:nevermined:payment".toList,
         params := some { planId := some "plan-2".toList, agentId := none,
                          credits := some 3, costDescription := none } }] }

/-- Witness for C10: registering `http://s/` then `http://s` (same normalized
key) leaves exactly the info parsed from the second card. -/
theorem register_overwrites_wholesale_witness :
    dictGet (rstripSlash "http://s".toList)
      (register (register [] "http://s/".toList cardA).1 "http://s".toList
        cardB).1 = some (parseCard "http://s".toList cardB) := by
  exact (register_overwrites_wholesale [] "http://s/".toList "http://s".toList
    cardA cardB (by decide)).1
